import Mathlib

/-!
Shallow embedding of `src/qp.py` (DYNOSuprovo/ProblemSolverQP): a Streamlit
script that uploads a PDF question paper, saves it to a local temp file,
uploads it to the Gemini API, streams back a generated solution, and cleans
up in a `finally` block.

The script is modelled as a pure function `runWorkflow : Env → FS → RunResult`.
`Env` fixes the behaviour of every external collaborator (Streamlit secrets /
process environment, the remote Gemini service, the local filesystem's
fallible operations, the chunk stream).  `RunResult` records the chronological
trace of observable events (UI messages, remote calls, filesystem operations,
chunks relayed to the renderer), the final local filesystem state, the
accumulated `full_response_text`, and how the script run ended (completed,
stopped via `st.stop()`, or crashed on an exception no `except` catches).
-/

/-- The file supplied by the Streamlit file-picker (`uploaded_file`):
its `name` and its raw bytes (`getvalue()`), modelled as a string. -/
structure UploadedFile where
  name : String
  content : String
  deriving Repr, DecidableEq

/-- The handle returned by `genai.upload_file` (qp.py:61-66): the remote
`name` used by `genai.delete_file`, and the `display_name`. -/
structure RemoteFile where
  name : String
  display_name : String
  deriving Repr, DecidableEq

/-- Local filesystem state relevant to the script: whether the `temp_files`
directory exists and whether this run's temp file exists. -/
structure FS where
  dirExists : Bool
  fileExists : Bool
  deriving Repr, DecidableEq

/-- Behaviour of all external collaborators for one run of the script. -/
structure Env where
  /-- `st.secrets.get("API_KEY")` (qp.py:14). -/
  secretsKey : Option String
  /-- `os.getenv("GOOGLE_API_KEY")` (qp.py:14). -/
  envKey : Option String
  /-- whether `genai.configure` succeeds (qp.py:28). -/
  configureOk : Bool
  /-- the file from `st.file_uploader`, `none` when no file chosen (qp.py:35-42). -/
  uploadedFile : Option UploadedFile
  /-- whether writing the temp file succeeds (qp.py:53-54); `open(..., "wb")`
  creates the file even when the subsequent write raises. -/
  writeOk : Bool
  /-- `genai.upload_file` (qp.py:61): error message, or the remote handle name. -/
  uploadResult : Except String String
  /-- `genai.GenerativeModel(...)` construction (qp.py:108): error message or success. -/
  modelResult : Except String Unit
  /-- the `model.generate_content(..., stream=True)` call itself (qp.py:134):
  error message or success.  Errors raised while iterating the stream are
  separate (`streamErr`): they are caught inside `stream_text_generator`. -/
  generateResult : Except String Unit
  /-- the `chunk.text` values delivered by the stream before it ends or errors
  (qp.py:146). -/
  streamChunks : List String
  /-- an exception raised by the stream after the chunks above, caught at
  qp.py:153; `none` when the stream ends normally. -/
  streamErr : Option String
  /-- whether `os.remove` on the local temp file succeeds (qp.py:89, 118, 197). -/
  localRemoveOk : Bool
  /-- whether `genai.delete_file` succeeds when the remote resource still
  exists (qp.py:122, 207). -/
  remoteDeleteOk : Bool
  deriving Repr

/-- Python truthiness of an optional string: `None` and `""` are falsy. -/
def pyTruthy : Option String → Bool
  | none => false
  | some s => !(s == "")

/-- Python `a or b` on optional strings (qp.py:14): the first operand when it
is truthy, otherwise the second. -/
def pyOr (a b : Option String) : Option String :=
  if pyTruthy a then a else b

/-- Observable events of one run, in chronological order. -/
inductive Event where
  /-- `st.error` -/
  | errorMsg (s : String)
  /-- `st.warning` -/
  | warnMsg (s : String)
  /-- `st.info` -/
  | infoMsg (s : String)
  /-- `st.success` -/
  | successMsg (s : String)
  /-- a chunk text yielded to `st.write_stream`, i.e. relayed to the renderer -/
  | renderChunk (s : String)
  /-- `solution_placeholder.empty()` in the generation `except` (qp.py:183) -/
  | clearPlaceholder
  /-- `temp_dir.mkdir(exist_ok=True)` (qp.py:47) -/
  | mkdirTemp
  /-- the temp file is created/written (qp.py:53-54) -/
  | localWrite (path : String)
  /-- an `os.remove` attempt on the temp file -/
  | localRemove (path : String)
  /-- a `genai.upload_file` call (qp.py:61) -/
  | remoteUpload (path : String) (displayName : String)
  /-- a `model.generate_content` call referencing the remote handle (qp.py:134) -/
  | remoteGenerate (handle : String)
  /-- a `genai.delete_file` call; `succeeded` records whether the remote
  resource was actually deleted by this call -/
  | remoteDelete (handle : String) (succeeded : Bool)
  deriving Repr, DecidableEq

/-- How the script run ended. -/
inductive Outcome where
  /-- the script ran to its last line -/
  | completed
  /-- `st.stop()` was reached -/
  | stopped
  /-- an exception propagated out with no `except` to catch it -/
  | crashed (msg : String)
  deriving Repr, DecidableEq

/-- How control left the `try` body (qp.py:51-191) before the `finally`. -/
inductive TryExit where
  | normal
  | stop
  | exc (msg : String)
  deriving Repr, DecidableEq

/-- Result of one run of the script. -/
structure RunResult where
  trace : List Event
  fs : FS
  outcome : Outcome
  /-- the final `full_response_text` accumulated by `stream_text_generator`
  (`""` on paths that never stream) -/
  resultText : String
  deriving Repr, DecidableEq

/-- `temp_pdf_path = temp_dir / f"temp_{uploaded_file.name}"` (qp.py:48). -/
def tempPathFor (uf : UploadedFile) : String :=
  "temp_files/temp_" ++ uf.name

/- Message texts of qp.py (f-string interpolations concatenated). -/

def keyMissingMsg : String :=
  "Google API Key not found. Please set it in environment variables (GOOGLE_API_KEY) or Streamlit secrets (API_KEY)."

def configErrMsg : String :=
  "Error configuring Google Generative AI: <exception>"

def configuredMsg : String :=
  "Google Generative AI configured successfully."

def pleaseUploadMsg : String :=
  "Please upload a PDF file to start."

def processingMsg (name : String) : String :=
  "Processing uploaded file: " ++ name

def uploadOkMsg (name : String) : String :=
  name ++ " uploaded successfully to Google Cloud!"

def uploadErrMsg (m : String) : String :=
  "Error uploading file to Google Cloud: " ++ m

def modelErrMsg (m : String) : String :=
  "Error creating Generative Model: " ++ m

def genErrMsg (m : String) : String :=
  "Error during content generation: " ++ m

def genFeedbackWarnMsg : String :=
  "Could not retrieve prompt feedback after generation error."

def streamErrMsg (m : String) : String :=
  "Error while streaming response: " ++ m

def streamFeedbackWarnMsg : String :=
  "Prompt feedback warning after streaming error."

def finishedMsg : String :=
  "Solution generation process finished."

def rmWarnMsg (p : String) : String :=
  "Could not remove temporary file " ++ p

def delOkMsg (dn : String) : String :=
  "Deleted temporary file " ++ dn ++ " from Google Cloud."

def delWarnMsg (n : String) : String :=
  "Could not delete file " ++ n ++ " from Google Cloud. Manual cleanup might be needed."

/-- One step of `stream_text_generator` (qp.py:146-151): on a chunk, if
`chunk.text` is truthy (non-empty) it is appended to `full_response_text`
and yielded to the renderer; otherwise the chunk is skipped.  The
accumulator is `(full_response_text, yielded chunks so far)`. -/
def streamStep (acc : String × List String) (c : String) : String × List String :=
  if c = "" then acc else (acc.1 ++ c, acc.2 ++ [c])

/-- The whole loop of `stream_text_generator` over the chunks the stream
delivers: final `full_response_text` and the list of yielded chunk texts. -/
def streamAccum (chunks : List String) : String × List String :=
  chunks.foldl streamStep ("", [])

/-- The events produced when the stream raises mid-stream (qp.py:153-159):
`st.error` plus a feedback `st.warning`; nothing when the stream ends
normally. -/
def streamErrEvents : Option String → List Event
  | some m => [.errorMsg (streamErrMsg m), .warnMsg streamFeedbackWarnMsg]
  | none => []

/-- Result of the `try` body (qp.py:51-191): its events, filesystem state,
the `question_paper_file` variable, whether the remote resource has already
been deleted (qp.py:122), the accumulated text, and how control left. -/
structure BodyOut where
  trace : List Event
  fs : FS
  qpf : Option RemoteFile
  remoteDeleted : Bool
  resultText : String
  exit : TryExit
  deriving Repr, DecidableEq

/-- The `try` body (qp.py:51-191): write the temp file, upload it, build the
model, generate with streaming, consume the stream.  `fs` already has
`dirExists = true` (mkdir ran just before). -/
def processBody (env : Env) (uf : UploadedFile) (fs : FS) : BodyOut :=
  let p := tempPathFor uf
  -- `open(temp_pdf_path, "wb")` creates the file even if the write then fails
  let fs1 : FS := { fs with fileExists := true }
  if !env.writeOk then
    -- the write exception has no matching `except`; it reaches the `finally`
    { trace := [.localWrite p], fs := fs1, qpf := none, remoteDeleted := false,
      resultText := "", exit := .exc "temp file write failed" }
  else
    match env.uploadResult with
    | .error m =>
      -- qp.py:85-90: st.error, remove the temp file (unprotected), st.stop()
      let base : List Event := [.localWrite p, .remoteUpload p uf.name,
        .errorMsg (uploadErrMsg m)]
      if fs1.fileExists then
        if env.localRemoveOk then
          { trace := base ++ [.localRemove p],
            fs := { fs1 with fileExists := false }, qpf := none,
            remoteDeleted := false, resultText := "", exit := .stop }
        else
          -- os.remove at qp.py:89 is not inside any try/except of its own
          { trace := base ++ [.localRemove p], fs := fs1, qpf := none,
            remoteDeleted := false, resultText := "",
            exit := .exc "temp file remove failed" }
      else
        { trace := base, fs := fs1, qpf := none, remoteDeleted := false,
          resultText := "", exit := .stop }
    | .ok h =>
      let qpf : RemoteFile := { name := h, display_name := uf.name }
      let base : List Event := [.localWrite p, .remoteUpload p uf.name,
        .successMsg (uploadOkMsg uf.name)]
      match env.modelResult with
      | .error m =>
        -- qp.py:114-124: st.error, remove temp file (unprotected os.remove),
        -- then delete the remote file (protected, errors ignored), st.stop()
        let t1 := base ++ [.errorMsg (modelErrMsg m), .localRemove p]
        if env.localRemoveOk then
          { trace := t1 ++ [.remoteDelete h env.remoteDeleteOk],
            fs := { fs1 with fileExists := false }, qpf := some qpf,
            remoteDeleted := env.remoteDeleteOk, resultText := "",
            exit := .stop }
        else
          { trace := t1, fs := fs1, qpf := some qpf, remoteDeleted := false,
            resultText := "", exit := .exc "temp file remove failed" }
      | .ok _ =>
        match env.generateResult with
        | .error m =>
          -- qp.py:182-190: the outer except clears the placeholder, shows the
          -- error and a feedback warning; control then falls to the finally
          { trace := base ++ [.remoteGenerate h, .clearPlaceholder,
              .errorMsg (genErrMsg m), .warnMsg genFeedbackWarnMsg],
            fs := fs1, qpf := some qpf, remoteDeleted := false,
            resultText := "", exit := .normal }
        | .ok _ =>
          -- qp.py:142-166: the generator yields each non-empty chunk text;
          -- a mid-stream exception is caught INSIDE the generator (qp.py:153):
          -- it surfaces st.error + st.warning, the generator returns, and the
          -- script still reaches st.success (qp.py:172)
          let acc := streamAccum env.streamChunks
          { trace := base ++ [.remoteGenerate h]
              ++ acc.2.map Event.renderChunk ++ streamErrEvents env.streamErr
              ++ [.successMsg finishedMsg],
            fs := fs1, qpf := some qpf, remoteDeleted := false,
            resultText := acc.1, exit := .normal }

/-- The `finally` block (qp.py:192-210): best-effort removal of the local
temp file (protected by try/except), then best-effort deletion of the remote
file when `question_paper_file` is set (also protected).  The remote delete
only actually deletes when the resource still exists. -/
def runFinally (env : Env) (uf : UploadedFile) (b : BodyOut) :
    List Event × FS :=
  let p := tempPathFor uf
  let localPart : List Event × FS :=
    if b.fs.fileExists then
      if env.localRemoveOk then
        ([.localRemove p], { b.fs with fileExists := false })
      else
        ([.localRemove p, .warnMsg (rmWarnMsg p)], b.fs)
    else ([], b.fs)
  let remotePart : List Event :=
    match b.qpf with
    | some f =>
      let succ := env.remoteDeleteOk && !b.remoteDeleted
      if succ then [.remoteDelete f.name true, .infoMsg (delOkMsg f.display_name)]
      else [.remoteDelete f.name false, .warnMsg (delWarnMsg f.name)]
    | none => []
  (localPart.1 ++ remotePart, localPart.2)

/-- One run of the whole script: API-key check (qp.py:23-32), file-present
check (qp.py:42), mkdir (qp.py:47), then the `try` body and its `finally`. -/
def runWorkflow (env : Env) (fs0 : FS) : RunResult :=
  if !(pyTruthy (pyOr env.secretsKey env.envKey)) then
    { trace := [.errorMsg keyMissingMsg], fs := fs0, outcome := .stopped,
      resultText := "" }
  else if !env.configureOk then
    { trace := [.errorMsg configErrMsg], fs := fs0, outcome := .stopped,
      resultText := "" }
  else
    match env.uploadedFile with
    | none =>
      { trace := [.successMsg configuredMsg, .infoMsg pleaseUploadMsg],
        fs := fs0, outcome := .completed, resultText := "" }
    | some uf =>
      let fsd : FS := { fs0 with dirExists := true }
      let b := processBody env uf fsd
      let fin := runFinally env uf b
      { trace := [.successMsg configuredMsg, .infoMsg (processingMsg uf.name),
          .mkdirTemp] ++ b.trace ++ fin.1,
        fs := fin.2,
        outcome := match b.exit with
          | .normal => .completed
          | .stop => .stopped
          | .exc m => .crashed m,
        resultText := b.resultText }

/- Observers over traces. -/

/-- The chunk texts relayed to the renderer, in trace order. -/
def renderedChunks (tr : List Event) : List String :=
  tr.filterMap fun e =>
    match e with
    | .renderChunk s => some s
    | _ => none

def isUploadCall : Event → Bool
  | .remoteUpload _ _ => true
  | _ => false

def isGenerateCall : Event → Bool
  | .remoteGenerate _ => true
  | _ => false

def isDeleteCall : Event → Bool
  | .remoteDelete _ _ => true
  | _ => false

/-- Any call into the remote generative service. -/
def isRemoteCall (e : Event) : Bool :=
  isUploadCall e || isGenerateCall e || isDeleteCall e

def isLocalRemove : Event → Bool
  | .localRemove _ => true
  | _ => false

/-- The first `st.error` message of a run: its error classification. -/
def firstError : List Event → Option String
  | [] => none
  | .errorMsg s :: _ => some s
  | _ :: rest => firstError rest

/-- Does event `e` reference remote handle `h`? -/
def refsHandle (h : String) (e : Event) : Bool :=
  match e with
  | .remoteGenerate h' => h = h'
  | .remoteDelete h' _ => h = h'
  | _ => false

/-- Is `e` a delete that actually removed the resource behind `h`? -/
def deletesHandle (h : String) (e : Event) : Bool :=
  match e with
  | .remoteDelete h' true => h = h'
  | _ => false

/-- `h` is referenced strictly after the event that deleted its backing
remote resource. -/
def useAfterDelete (h : String) : List Event → Bool
  | [] => false
  | e :: rest =>
    (deletesHandle h e && rest.any (refsHandle h)) || useAfterDelete h rest

/-- Concatenation of a list of strings in order. -/
def concatChunks : List String → String
  | [] => ""
  | c :: cs => c ++ concatChunks cs

/-- The chunk texts with truthy (non-empty) `chunk.text`, in arrival order. -/
def nonEmptyChunks (cs : List String) : List String :=
  cs.filter fun c => c ≠ ""

/-- Did the run end with an exception that no `except` caught? -/
def Outcome.isCrash : Outcome → Bool
  | .crashed _ => true
  | _ => false

/- Concrete runs used to witness the theorems below. -/

/-- Fresh local filesystem: no `temp_files` directory, no temp file. -/
def fsEmpty : FS := { dirExists := false, fileExists := false }

/-- A concrete uploaded file. -/
def ufDemo : UploadedFile := { name := "q.pdf", content := "PDFBYTES" }

/-- A run where every collaborator behaves: valid key, upload returns handle
H1, streaming delivers two non-empty chunks and one empty chunk. -/
def envHappy : Env :=
  { secretsKey := some "valid-key", envKey := none, configureOk := true,
    uploadedFile := some ufDemo, writeOk := true, uploadResult := .ok "H1",
    modelResult := .ok (), generateResult := .ok (),
    streamChunks := ["Answer", "", ": 42"], streamErr := none,
    localRemoveOk := true, remoteDeleteOk := true }

/-- As `envHappy` but the credential is absent in secrets and empty in the
process environment. -/
def envNoKey : Env := { envHappy with secretsKey := none, envKey := some "" }

/-- As `envHappy` but writing the local temp file raises. -/
def envWriteFail : Env := { envHappy with writeOk := false }

/-- As `envHappy` but the stream raises mid-stream after its chunks. -/
def envStreamErr : Env := { envHappy with streamErr := some "stream interrupted" }

/-- As `envHappy` but `genai.GenerativeModel` construction raises. -/
def envModelFail : Env :=
  { envHappy with modelResult := .error "model construction failed" }

/-- As `envHappy` but `genai.upload_file` raises. -/
def envUploadFail : Env :=
  { envHappy with uploadResult := .error "network unreachable" }

/- Helper lemmas. -/

theorem foldl_streamStep (cs : List String) (a : String) (l : List String) :
    cs.foldl streamStep (a, l) =
      (a ++ concatChunks (nonEmptyChunks cs), l ++ nonEmptyChunks cs) := by
  induction cs generalizing a l with
  | nil => simp [nonEmptyChunks, concatChunks]
  | cons c cs ih =>
    by_cases hc : c = ""
    · subst hc
      simp [streamStep, nonEmptyChunks, ih]
    · simp [streamStep, hc, nonEmptyChunks, concatChunks, ih,
        String.append_assoc]

/-- `full_response_text` accumulated by the generator is the concatenation of
the non-empty chunk texts in arrival order. -/
theorem streamAccum_fst (cs : List String) :
    (streamAccum cs).1 = concatChunks (nonEmptyChunks cs) := by
  simp [streamAccum, foldl_streamStep]

/-- The chunks yielded by the generator are exactly the non-empty chunk texts
in arrival order. -/
theorem streamAccum_snd (cs : List String) :
    (streamAccum cs).2 = nonEmptyChunks cs := by
  simp [streamAccum, foldl_streamStep]

theorem renderedChunks_nil : renderedChunks [] = [] := rfl

theorem renderedChunks_cons (e : Event) (l : List Event) :
    renderedChunks (e :: l) =
      (match e with
       | .renderChunk s => s :: renderedChunks l
       | _ => renderedChunks l) := by
  cases e <;> simp [renderedChunks]

theorem renderedChunks_append (l1 l2 : List Event) :
    renderedChunks (l1 ++ l2) = renderedChunks l1 ++ renderedChunks l2 := by
  simp [renderedChunks]

theorem renderedChunks_map_render (l : List String) :
    renderedChunks (l.map Event.renderChunk) = l := by
  induction l with
  | nil => simp [renderedChunks]
  | cons a l ih => simp [renderedChunks] at ih ⊢; exact ih

theorem renderedChunks_streamErrEvents (o : Option String) :
    renderedChunks (streamErrEvents o) = [] := by
  cases o <;> simp [streamErrEvents, renderedChunks]

theorem filter_map_render_eq_nil (p : Event → Bool)
    (hp : ∀ s, p (Event.renderChunk s) = false) (l : List String) :
    (l.map Event.renderChunk).filter p = [] := by
  induction l with
  | nil => simp
  | cons a l ih => simp [hp, ih]

theorem any_map_render_eq_false (p : Event → Bool)
    (hp : ∀ s, p (Event.renderChunk s) = false) (l : List String) :
    (l.map Event.renderChunk).any p = false := by
  induction l with
  | nil => simp
  | cons a l ih => simp [hp, ih]

theorem any_isLocalRemove_map_render (l : List String) :
    (l.map Event.renderChunk).any isLocalRemove = false :=
  any_map_render_eq_false _ (fun _ => rfl) l

theorem any_isLocalRemove_streamErrEvents (o : Option String) :
    (streamErrEvents o).any isLocalRemove = false := by
  cases o <;> rfl

/-- the `try` body never touches the `temp_files` directory itself. -/
theorem processBody_dirExists (env : Env) (uf : UploadedFile) (fs : FS) :
    (processBody env uf fs).fs.dirExists = fs.dirExists := by
  cases hw : env.writeOk <;> cases hup : env.uploadResult <;>
  cases hlr : env.localRemoveOk <;> cases hmr : env.modelResult <;>
  cases hg : env.generateResult <;>
  simp [processBody, hw, hup, hlr, hmr, hg]

/-- the `finally` block never touches the `temp_files` directory itself. -/
theorem runFinally_dirExists (env : Env) (uf : UploadedFile) (b : BodyOut) :
    (runFinally env uf b).2.dirExists = b.fs.dirExists := by
  cases hfe : b.fs.fileExists <;> cases hlr : env.localRemoveOk <;>
  cases hq : b.qpf <;> simp [runFinally, hfe, hlr, hq]

/-- when `os.remove` works, the `finally` block always leaves the temp file
deleted, whatever state the `try` body left behind. -/
theorem runFinally_fileExists (env : Env) (uf : UploadedFile) (b : BodyOut)
    (hr : env.localRemoveOk = true) :
    (runFinally env uf b).2.fileExists = false := by
  cases hfe : b.fs.fileExists <;> cases hq : b.qpf <;>
  simp [runFinally, hfe, hr, hq]

/-- closed form of the chunks relayed to the renderer on the streaming path
(upload, model construction and the generate call all succeed). -/
theorem run_stream_rendered (env : Env) (uf : UploadedFile) (h : String)
    (fs0 : FS)
    (hk : pyTruthy (pyOr env.secretsKey env.envKey) = true)
    (hc : env.configureOk = true)
    (hu : env.uploadedFile = some uf)
    (hw : env.writeOk = true)
    (hup : env.uploadResult = .ok h)
    (hmr : env.modelResult = .ok ())
    (hg : env.generateResult = .ok ()) :
    renderedChunks (runWorkflow env fs0).trace
      = nonEmptyChunks env.streamChunks := by
  cases hlr : env.localRemoveOk <;>
  cases hrd : env.remoteDeleteOk <;>
  simp [runWorkflow, processBody, runFinally, hk, hc, hu, hw, hup, hmr, hg,
    hlr, hrd, renderedChunks_nil, renderedChunks_cons, renderedChunks_append,
    renderedChunks_map_render, renderedChunks_streamErrEvents, streamAccum_snd]

/-- closed form of the accumulated `full_response_text` on the streaming
path. -/
theorem run_stream_resultText (env : Env) (uf : UploadedFile) (h : String)
    (fs0 : FS)
    (hk : pyTruthy (pyOr env.secretsKey env.envKey) = true)
    (hc : env.configureOk = true)
    (hu : env.uploadedFile = some uf)
    (hw : env.writeOk = true)
    (hup : env.uploadResult = .ok h)
    (hmr : env.modelResult = .ok ())
    (hg : env.generateResult = .ok ()) :
    (runWorkflow env fs0).resultText
      = concatChunks (nonEmptyChunks env.streamChunks) := by
  cases hlr : env.localRemoveOk <;>
  cases hrd : env.remoteDeleteOk <;>
  simp [runWorkflow, processBody, runFinally, hk, hc, hu, hw, hup, hmr, hg,
    hlr, hrd, streamAccum_fst]

/-- on an upload failure the first surfaced error is the upload error and no
remote delete call is ever made. -/
theorem run_upload_failure (env : Env) (uf : UploadedFile) (m : String)
    (fs0 : FS)
    (hk : pyTruthy (pyOr env.secretsKey env.envKey) = true)
    (hc : env.configureOk = true)
    (hu : env.uploadedFile = some uf)
    (hw : env.writeOk = true)
    (hup : env.uploadResult = .error m) :
    firstError (runWorkflow env fs0).trace = some (uploadErrMsg m)
    ∧ (runWorkflow env fs0).trace.filter isDeleteCall = [] := by
  cases hlr : env.localRemoveOk <;>
  simp [runWorkflow, processBody, runFinally, hk, hc, hu, hw, hup, hlr,
    firstError, isDeleteCall]

/- Claim theorems. -/

/-- C1: in streaming mode the chunks relayed to the renderer appear in the
exact order they were received from the remote stream (they form a sublist
of the received chunk texts), and their concatenation in receipt order
equals the final accumulated `resultText`. -/
theorem claim1_stream_relay_order_and_concat (env : Env) (uf : UploadedFile)
    (h : String) (fs0 : FS)
    (hk : pyTruthy (pyOr env.secretsKey env.envKey) = true)
    (hc : env.configureOk = true)
    (hu : env.uploadedFile = some uf)
    (hw : env.writeOk = true)
    (hup : env.uploadResult = .ok h)
    (hmr : env.modelResult = .ok ())
    (hg : env.generateResult = .ok ()) :
    List.Sublist (renderedChunks (runWorkflow env fs0).trace) env.streamChunks
    ∧ concatChunks (renderedChunks (runWorkflow env fs0).trace)
        = (runWorkflow env fs0).resultText := by
  have htr := run_stream_rendered env uf h fs0 hk hc hu hw hup hmr hg
  have hrt := run_stream_resultText env uf h fs0 hk hc hu hw hup hmr hg
  refine ⟨?_, ?_⟩
  · rw [htr]; exact List.filter_sublist _
  · rw [htr, hrt]

theorem claim1_witness :
    List.Sublist (renderedChunks (runWorkflow envHappy fsEmpty).trace)
      envHappy.streamChunks
    ∧ concatChunks (renderedChunks (runWorkflow envHappy fsEmpty).trace)
        = (runWorkflow envHappy fsEmpty).resultText :=
  claim1_stream_relay_order_and_concat envHappy ufDemo "H1" fsEmpty
    (by decide) rfl rfl rfl rfl rfl rfl

/-- C2: in every run that reaches the submission workflow, cleanup of the
local temp file is attempted unconditionally (an `os.remove` attempt appears
in the trace on every path), and whenever the local remove operation works
the temp file no longer exists after the workflow completes, whether the run
completed, stopped or crashed. -/
theorem claim2_cleanup_unconditional (env : Env) (uf : UploadedFile) (fs0 : FS)
    (hk : pyTruthy (pyOr env.secretsKey env.envKey) = true)
    (hc : env.configureOk = true)
    (hu : env.uploadedFile = some uf) :
    (runWorkflow env fs0).trace.any isLocalRemove = true
    ∧ (env.localRemoveOk = true → (runWorkflow env fs0).fs.fileExists = false) := by
  constructor
  · cases hw : env.writeOk <;> cases hup : env.uploadResult <;>
    cases hlr : env.localRemoveOk <;> cases hmr : env.modelResult <;>
    cases hg : env.generateResult <;>
    simp [runWorkflow, processBody, runFinally, hk, hc, hu, hw, hup, hlr, hmr,
      hg, isLocalRemove, List.any_append, any_isLocalRemove_map_render,
      any_isLocalRemove_streamErrEvents]
  · intro hr
    have := runFinally_fileExists env uf
      (processBody env uf { fs0 with dirExists := true }) hr
    simp [runWorkflow, hk, hc, hu, this]

theorem claim2_witness :
    (runWorkflow envHappy fsEmpty).trace.any isLocalRemove = true
    ∧ (envHappy.localRemoveOk = true
        → (runWorkflow envHappy fsEmpty).fs.fileExists = false) :=
  claim2_cleanup_unconditional envHappy ufDemo fsEmpty (by decide) rfl rfl

/-- C3: when the credential is absent or empty, the run surfaces the
configuration error, stops immediately, and no call at all is made to the
remote service (no upload, no generate, no delete). -/
theorem claim3_missing_key_fails_fast (env : Env) (fs0 : FS)
    (hk : pyTruthy (pyOr env.secretsKey env.envKey) = false) :
    (runWorkflow env fs0).trace = [.errorMsg keyMissingMsg]
    ∧ (runWorkflow env fs0).outcome = .stopped
    ∧ (runWorkflow env fs0).trace.filter isRemoteCall = [] := by
  refine ⟨?_, ?_, ?_⟩ <;>
  simp [runWorkflow, hk, isRemoteCall, isUploadCall, isGenerateCall,
    isDeleteCall]

theorem claim3_witness :
    (runWorkflow envNoKey fsEmpty).trace = [.errorMsg keyMissingMsg]
    ∧ (runWorkflow envNoKey fsEmpty).outcome = .stopped
    ∧ (runWorkflow envNoKey fsEmpty).trace.filter isRemoteCall = [] :=
  claim3_missing_key_fails_fast envNoKey fsEmpty (by decide)

/-- C4 counterexample: a run in which writing the local temp file raises ends
with an exception that no `except` of the script catches (the `try` at
qp.py:51 has only a `finally`), refuting the claim that no error propagates
out of the workflow as an unhandled crash. -/
theorem claim4_counterexample :
    Outcome.isCrash (runWorkflow envWriteFail fsEmpty).outcome = true := by
  rfl

/-- C4 amended: every failure of the remote collaborators (upload, model
construction, generation, mid-stream) is caught and converted to a
user-visible message; only local I/O failures (temp-file write, or the
unprotected temp-file removes inside the upload-failure and model-failure
handlers) can propagate out uncaught.  When local I/O works, no run crashes,
whatever the remote service does. -/
theorem claim4_no_crash_when_local_io_ok (env : Env) (fs0 : FS)
    (hw : env.writeOk = true)
    (hr : env.localRemoveOk = true) :
    Outcome.isCrash (runWorkflow env fs0).outcome = false := by
  cases hk : pyTruthy (pyOr env.secretsKey env.envKey) <;>
  cases hc : env.configureOk <;> cases hu : env.uploadedFile <;>
  cases hup : env.uploadResult <;> cases hmr : env.modelResult <;>
  cases hg : env.generateResult <;>
  simp [runWorkflow, processBody, runFinally, Outcome.isCrash, hk, hc, hu,
    hup, hmr, hg, hw, hr]

theorem claim4_witness :
    Outcome.isCrash (runWorkflow envHappy fsEmpty).outcome = false :=
  claim4_no_crash_when_local_io_ok envHappy fsEmpty rfl rfl

/-- C5 counterexample: a run whose stream raises mid-stream does not end in a
failure state: it completes normally and still announces the generation
success message, because `stream_text_generator` swallows the exception
(qp.py:153) and control reaches `st.success` (qp.py:172). -/
theorem claim5_counterexample :
    (runWorkflow envStreamErr fsEmpty).outcome = Outcome.completed
    ∧ Event.successMsg finishedMsg ∈ (runWorkflow envStreamErr fsEmpty).trace := by
  refine ⟨rfl, ?_⟩
  decide

/-- C5 amended: a mid-stream generation failure surfaces an error message and
all partial chunks already relayed remain visible (the placeholder is never
cleared), but it is not fatal: the generator swallows the exception, the run
completes, and the success status is still announced. -/
theorem claim5_midstream_error_surfaced_but_not_fatal (env : Env)
    (uf : UploadedFile) (h m : String) (fs0 : FS)
    (hk : pyTruthy (pyOr env.secretsKey env.envKey) = true)
    (hc : env.configureOk = true)
    (hu : env.uploadedFile = some uf)
    (hw : env.writeOk = true)
    (hup : env.uploadResult = .ok h)
    (hmr : env.modelResult = .ok ())
    (hg : env.generateResult = .ok ())
    (hse : env.streamErr = some m) :
    Event.errorMsg (streamErrMsg m) ∈ (runWorkflow env fs0).trace
    ∧ renderedChunks (runWorkflow env fs0).trace
        = nonEmptyChunks env.streamChunks
    ∧ Event.clearPlaceholder ∉ (runWorkflow env fs0).trace
    ∧ (runWorkflow env fs0).outcome = Outcome.completed
    ∧ Event.successMsg finishedMsg ∈ (runWorkflow env fs0).trace := by
  refine ⟨?_, run_stream_rendered env uf h fs0 hk hc hu hw hup hmr hg, ?_, ?_, ?_⟩ <;>
  cases hlr : env.localRemoveOk <;>
  cases hrd : env.remoteDeleteOk <;>
  simp [runWorkflow, processBody, runFinally, hk, hc, hu, hw, hup, hmr, hg,
    hse, hlr, hrd, streamErrEvents, List.mem_map]

theorem claim5_witness :
    Event.errorMsg (streamErrMsg "stream interrupted")
        ∈ (runWorkflow envStreamErr fsEmpty).trace
    ∧ renderedChunks (runWorkflow envStreamErr fsEmpty).trace
        = nonEmptyChunks envStreamErr.streamChunks
    ∧ Event.clearPlaceholder ∉ (runWorkflow envStreamErr fsEmpty).trace
    ∧ (runWorkflow envStreamErr fsEmpty).outcome = Outcome.completed
    ∧ Event.successMsg finishedMsg ∈ (runWorkflow envStreamErr fsEmpty).trace :=
  claim5_midstream_error_surfaced_but_not_fatal envStreamErr ufDemo "H1"
    "stream interrupted" fsEmpty (by decide) rfl rfl rfl rfl rfl rfl rfl

/-- C6: the code violates the never-reference-after-delete invariant: when
model construction fails after a successful upload, the handler at
qp.py:120-123 deletes the remote file but leaves `question_paper_file` set,
so the `finally` block (qp.py:203-207) calls `genai.delete_file` on the same
handle again — a reference to the handle after its backing resource was
deleted. -/
theorem claim6_handle_used_after_delete :
    useAfterDelete "H1" (runWorkflow envModelFail fsEmpty).trace = true := by
  rfl

/-- C7: when the remote upload raises, the run surfaces the remote-upload
error, makes exactly one upload call (no retry), and — provided the local
remove operation works — the temp file is gone before the run ends. -/
theorem claim7_upload_failure_cleanup (env : Env) (uf : UploadedFile)
    (m : String) (fs0 : FS)
    (hk : pyTruthy (pyOr env.secretsKey env.envKey) = true)
    (hc : env.configureOk = true)
    (hu : env.uploadedFile = some uf)
    (hw : env.writeOk = true)
    (hup : env.uploadResult = .error m)
    (hr : env.localRemoveOk = true) :
    Event.errorMsg (uploadErrMsg m) ∈ (runWorkflow env fs0).trace
    ∧ ((runWorkflow env fs0).trace.filter isUploadCall).length = 1
    ∧ (runWorkflow env fs0).fs.fileExists = false := by
  refine ⟨?_, ?_, ?_⟩ <;>
  simp [runWorkflow, processBody, runFinally, hk, hc, hu, hw, hup, hr,
    isUploadCall]

theorem claim7_witness :
    Event.errorMsg (uploadErrMsg "network unreachable")
        ∈ (runWorkflow envUploadFail fsEmpty).trace
    ∧ ((runWorkflow envUploadFail fsEmpty).trace.filter isUploadCall).length = 1
    ∧ (runWorkflow envUploadFail fsEmpty).fs.fileExists = false :=
  claim7_upload_failure_cleanup envUploadFail ufDemo "network unreachable"
    fsEmpty (by decide) rfl rfl rfl rfl rfl

/-- C8: two runs whose remote upload fails deterministically with the same
failure produce the same error classification (the first surfaced error
message), and neither run ever attempts a remote-handle deletion, since no
handle was created. -/
theorem claim8_deterministic_upload_failure (e1 e2 : Env)
    (uf1 uf2 : UploadedFile) (m : String) (fs1 fs2 : FS)
    (hk1 : pyTruthy (pyOr e1.secretsKey e1.envKey) = true)
    (hc1 : e1.configureOk = true)
    (hu1 : e1.uploadedFile = some uf1)
    (hw1 : e1.writeOk = true)
    (hup1 : e1.uploadResult = .error m)
    (hk2 : pyTruthy (pyOr e2.secretsKey e2.envKey) = true)
    (hc2 : e2.configureOk = true)
    (hu2 : e2.uploadedFile = some uf2)
    (hw2 : e2.writeOk = true)
    (hup2 : e2.uploadResult = .error m) :
    firstError (runWorkflow e1 fs1).trace = firstError (runWorkflow e2 fs2).trace
    ∧ (runWorkflow e1 fs1).trace.filter isDeleteCall = []
    ∧ (runWorkflow e2 fs2).trace.filter isDeleteCall = [] := by
  obtain ⟨a1, b1⟩ := run_upload_failure e1 uf1 m fs1 hk1 hc1 hu1 hw1 hup1
  obtain ⟨a2, b2⟩ := run_upload_failure e2 uf2 m fs2 hk2 hc2 hu2 hw2 hup2
  exact ⟨a1.trans a2.symm, b1, b2⟩

theorem claim8_witness :
    firstError (runWorkflow envUploadFail fsEmpty).trace
        = firstError (runWorkflow envUploadFail fsEmpty).trace
    ∧ (runWorkflow envUploadFail fsEmpty).trace.filter isDeleteCall = []
    ∧ (runWorkflow envUploadFail fsEmpty).trace.filter isDeleteCall = [] :=
  claim8_deterministic_upload_failure envUploadFail envUploadFail ufDemo ufDemo
    "network unreachable" fsEmpty fsEmpty
    (by decide) rfl rfl rfl rfl (by decide) rfl rfl rfl rfl

/-- C9: a received chunk with empty text is neither appended to the
accumulated result nor forwarded to the renderer: the relayed output is
exactly the non-empty chunk texts in arrival order, and the accumulated
result is their concatenation. -/
theorem claim9_empty_chunks_skipped (env : Env) (uf : UploadedFile)
    (h : String) (fs0 : FS)
    (hk : pyTruthy (pyOr env.secretsKey env.envKey) = true)
    (hc : env.configureOk = true)
    (hu : env.uploadedFile = some uf)
    (hw : env.writeOk = true)
    (hup : env.uploadResult = .ok h)
    (hmr : env.modelResult = .ok ())
    (hg : env.generateResult = .ok ()) :
    renderedChunks (runWorkflow env fs0).trace
      = env.streamChunks.filter (fun c => c ≠ "")
    ∧ (runWorkflow env fs0).resultText
        = concatChunks (env.streamChunks.filter (fun c => c ≠ "")) :=
  ⟨run_stream_rendered env uf h fs0 hk hc hu hw hup hmr hg,
   run_stream_resultText env uf h fs0 hk hc hu hw hup hmr hg⟩

theorem claim9_witness :
    renderedChunks (runWorkflow envHappy fsEmpty).trace
      = envHappy.streamChunks.filter (fun c => c ≠ "")
    ∧ (runWorkflow envHappy fsEmpty).resultText
        = concatChunks (envHappy.streamChunks.filter (fun c => c ≠ "")) :=
  claim9_empty_chunks_skipped envHappy ufDemo "H1" fsEmpty
    (by decide) rfl rfl rfl rfl rfl rfl

/-- C10: every run that reaches the submission workflow creates the
`temp_files` directory if it does not exist (`mkdir(exist_ok=True)` appears
in the trace) and never removes it: whatever the initial filesystem state and
whatever the collaborators do, the directory still exists after the workflow
completes. -/
theorem claim10_temp_dir_persists (env : Env) (uf : UploadedFile) (fs0 : FS)
    (hk : pyTruthy (pyOr env.secretsKey env.envKey) = true)
    (hc : env.configureOk = true)
    (hu : env.uploadedFile = some uf) :
    Event.mkdirTemp ∈ (runWorkflow env fs0).trace
    ∧ (runWorkflow env fs0).fs.dirExists = true := by
  constructor
  · simp [runWorkflow, hk, hc, hu]
  · have h1 := runFinally_dirExists env uf
      (processBody env uf { fs0 with dirExists := true })
    have h2 := processBody_dirExists env uf { fs0 with dirExists := true }
    simp [runWorkflow, hk, hc, hu, h1, h2]

theorem claim10_witness :
    Event.mkdirTemp ∈ (runWorkflow envHappy fsEmpty).trace
    ∧ (runWorkflow envHappy fsEmpty).fs.dirExists = true :=
  claim10_temp_dir_persists envHappy ufDemo fsEmpty (by decide) rfl rfl
